import Mathlib

/-!
Shallow embedding of `src/app.py` (storyphy.ai): a small Flask application that
turns a form submission into an illustrated storybook PDF.  The pipeline is
`create` (route handler) → `generate_story_with_openai` (text provider with an
offline stub) → a per-page illustration loop over `generate_image` and the two
provider adapters → HTML/PDF assembly.

External effects are passed as explicit parameters: the HTTP exchanges made via
`requests` (including `raise_for_status` and `.json()`), `json.loads`,
`base64.b64decode`, filesystem writes, the WeasyPrint renderer, and the
process's (randomized) string hash used by the builtin `hash`.  Python
exceptions are modelled as `Except String`; an `Except.error` escaping a
function models an uncaught exception.
-/

namespace StoryPhy

/-- JSON values as produced by `json.loads`.  Numbers are restricted to
integers: no claim involves a floating-point payload. -/
inductive Json where
  | null
  | bool (b : Bool)
  | num (n : Int)
  | str (s : String)
  | arr (xs : List Json)
  | obj (kvs : List (String × Json))
deriving Repr

/-- Whether a JSON value is an object (a Python dict after `json.loads`). -/
def Json.isObj : Json → Bool
  | .obj _ => true
  | _ => false

/-- First-match association lookup, the access pattern of a Python dict built
from parsed JSON (parsed objects cannot hold duplicate keys). -/
def lookupKvs : List (String × Json) → String → Option Json
  | [], _ => none
  | (k, v) :: rest, key => if k = key then some v else lookupKvs rest key

/-- Python `j.get(key, default)` on a value known to be a dict; a non-dict
receiver yields the default (that case never arises where this total helper is
used, see `pageGetD` for the raising variant). -/
def objGetD (j : Json) (key : String) (dflt : Json) : Json :=
  match j with
  | .obj kvs => (lookupKvs kvs key).getD dflt
  | _ => dflt

/-- Python `p.get(key, default)`: raises `AttributeError` when the receiver is
not a dict. -/
def pageGetD (p : Json) (key : String) (dflt : Json) : Except String Json :=
  match p with
  | .obj kvs => .ok ((lookupKvs kvs key).getD dflt)
  | _ => .error "AttributeError: get"

/-- Python `j[key]` subscription: `KeyError` on a missing key, `TypeError` on a
non-dict receiver. -/
def jGetKey (j : Json) (key : String) : Except String Json :=
  match j with
  | .obj kvs =>
    match lookupKvs kvs key with
    | some v => .ok v
    | none => .error ("KeyError: " ++ key)
  | _ => .error "TypeError: not subscriptable"

/-- Python `j[i]` list indexing: `IndexError` out of range, `TypeError` on a
non-list receiver. -/
def jGetIdx (j : Json) (i : Nat) : Except String Json :=
  match j with
  | .arr xs =>
    match xs.get? i with
    | some v => .ok v
    | none => .error "IndexError"
  | _ => .error "TypeError: not subscriptable"

/-- Iterating `story.get("pages", [])` in `create` (line 145): raises
`AttributeError` when `story` is not a dict, and `TypeError` when the value
under `"pages"` is not a list (Python would iterate a `str` value by character
and a `dict` value by key; no claim involves those shapes and both are
modelled as the same `TypeError`). -/
def pagesOfStory (story : Json) : Except String (List Json) :=
  match story with
  | .obj kvs =>
    match (lookupKvs kvs "pages").getD (.arr []) with
    | .arr xs => .ok xs
    | _ => .error "TypeError: not iterable"
  | _ => .error "AttributeError: get"

/-- Total variant of `pagesOfStory`, as seen by the tolerant Jinja template
(an undefined or non-list `pages` renders as nothing). -/
def jPagesD (story : Json) : List Json :=
  match story with
  | .obj kvs =>
    match (lookupKvs kvs "pages").getD (.arr []) with
    | .arr xs => xs
    | _ => []
  | _ => []

mutual
/-- Python `repr` of a JSON-shaped value (ASCII escaping is not modelled;
every value reaching `repr`/`str` in a claim is a plain string or an int). -/
def pyRepr : Json → String
  | .null => "None"
  | .bool b => if b then "True" else "False"
  | .num n => toString n
  | .str s => "\x27" ++ s ++ "\x27"
  | .arr xs => "[" ++ pyReprList xs ++ "]"
  | .obj kvs => "\x7b" ++ pyReprKvs kvs ++ "\x7d"

/-- Comma-separated reprs of the elements of a Python list. -/
def pyReprList : List Json → String
  | [] => ""
  | [x] => pyRepr x
  | x :: y :: rest => pyRepr x ++ ", " ++ pyReprList (y :: rest)

/-- Comma-separated reprs of the items of a Python dict. -/
def pyReprKvs : List (String × Json) → String
  | [] => ""
  | [(k, v)] => "\x27" ++ k ++ "\x27: " ++ pyRepr v
  | (k, v) :: kv :: rest => "\x27" ++ k ++ "\x27: " ++ pyRepr v ++ ", " ++ pyReprKvs (kv :: rest)
end

/-- Python `str()` of a JSON-shaped value, as interpolated by an f-string:
identical to `repr` except on strings. -/
def pyStr : Json → String
  | .str s => s
  | j => pyRepr j

/-- Character-level recursion behind `pyTitle`: an alphabetic character is
uppercased when the previous character was not alphabetic and lowercased
otherwise (the ASCII behaviour of Python `str.title()`). -/
def pyTitleChars : List Char → Bool → List Char
  | [], _ => []
  | c :: cs, prevAlpha =>
    (if c.isAlpha then (if prevAlpha then c.toLower else c.toUpper) else c) ::
      pyTitleChars cs c.isAlpha

/-- ASCII model of Python `str.title()` (used in the stub title
`f"{name} and the {theme.title()} Adventure"`). -/
def pyTitle (s : String) : String := ⟨pyTitleChars s.data false⟩

/-- ASCII model of Python `str.upper()` (used for the character token). -/
def pyUpper (s : String) : String := ⟨s.data.map Char.toUpper⟩

/-- Python `int(s)` on a string: surrounding whitespace stripped, optional
sign, one or more decimal digits.  Underscore digit grouping and non-ASCII
digits are not modelled (no claim uses them).  `none` models the `ValueError`
raised on any other input. -/
def pyInt (s : String) : Option Int :=
  let cs := ((s.data.dropWhile Char.isWhitespace).reverse.dropWhile Char.isWhitespace).reverse
  let signed : Bool × List Char :=
    match cs with
    | '-' :: rest => (true, rest)
    | '+' :: rest => (false, rest)
    | _ => (false, cs)
  match signed with
  | (neg, ds) =>
    if !ds.isEmpty && ds.all Char.isDigit then
      let n : Nat := ds.foldl (fun acc c => acc * 10 + (c.toNat - 48)) 0
      some (if neg then -(n : Int) else (n : Int))
    else none

/-- Python `range(1, n + 1)` collected into a list of ints (empty for
`n ≤ 0`). -/
def pyRange1 (n : Int) : List Int := (List.range n.toNat).map (fun k => ((k + 1 : Nat) : Int))

/-! CPython hashing, as invoked by line 152 of `create`:
`hash((child_name, p.get('page', 0))) % (2**32)`.  The tuple combiner is the
fixed xxHash-style function of CPython (64-bit builds, `tupleobject.c`); the
hash of the `str` element is SipHash keyed by the per-process randomization
(`PYTHONHASHSEED`), so it enters the model as a parameter. -/

/-- First xxPrime constant of the CPython tuple hash. -/
def xxPrime1 : Nat := 11400714785074694791

/-- Second xxPrime constant of the CPython tuple hash. -/
def xxPrime2 : Nat := 14029467366897019727

/-- Fifth xxPrime constant of the CPython tuple hash. -/
def xxPrime5 : Nat := 2870177450012600261

/-- Rotate a 64-bit value left by 31 (the `_PyHASH_XXROTATE` macro). -/
def xxRotate (x : Nat) : Nat := ((x <<< 31) % 2 ^ 64) ||| (x >>> 33)

/-- Reinterpret a 64-bit unsigned value as CPython's signed `Py_hash_t`. -/
def toSigned64 (u : Nat) : Int :=
  if u < 2 ^ 63 then (u : Int) else (u : Int) - 2 ^ 64

/-- Cast a signed `Py_hash_t` element hash to `Py_uhash_t` (the lane input of
the tuple combiner). -/
def lane64 (h : Int) : Nat := (h.emod (2 ^ 64)).toNat

/-- One lane accumulation step of the CPython tuple hash. -/
def tupleLaneStep (acc lane : Nat) : Nat :=
  (xxRotate ((acc + lane * xxPrime2) % 2 ^ 64) * xxPrime1) % 2 ^ 64

/-- CPython `hash` of a tuple, taking the already-computed element hashes. -/
def pyTupleHash (lanes : List Int) : Int :=
  let acc := lanes.foldl (fun a h => tupleLaneStep a (lane64 h)) xxPrime5
  let acc := (acc + Nat.xor lanes.length (Nat.xor xxPrime5 3527539)) % 2 ^ 64
  toSigned64 (if acc = 2 ^ 64 - 1 then 1546275796 else acc)

/-- CPython `hash` of an `int`: reduction modulo the Mersenne prime
`2^61 - 1`, sign preserved, with `-1` mapped to `-2`. -/
def pyIntHash (n : Int) : Int :=
  let m : Int := 2 ^ 61 - 1
  let h := if 0 ≤ n then n.emod m else -((-n).emod m)
  if h = -1 then -2 else h

/-- Seed expression of line 152 of `create`,
`hash((child_name, p.get('page', 0))) % (2**32)`, for the ordinary case where
the page value is an int.  `strHash` is the process's randomized SipHash of
the subject name; its value varies from one interpreter process to the
next. -/
def deriveSeed (strHash : String → Int) (name : String) (page : Int) : Nat :=
  ((pyTupleHash [strHash name, pyIntHash page]).emod (2 ^ 32)).toNat

/-- CPython builtin `hash` of the tuple `(child_name, page-value)` as invoked
by line 152, for each shape the page value can take after `json.loads`: an
int hashes per `pyIntHash`, a bool as the int 1 or 0, a string through the
process's randomized string hash `strHash`, and `None` through the
process/version constant `nullHash`; a list or dict page value is unhashable,
so `hash` raises `TypeError` (inside the `try` of lines 151-154). -/
def processHashPair (strHash : String → Int) (nullHash : Int)
    (child_name : String) (pg : Json) : Except String Int :=
  match pg with
  | .num n => .ok (pyTupleHash [strHash child_name, pyIntHash n])
  | .str s => .ok (pyTupleHash [strHash child_name, strHash s])
  | .bool b => .ok (pyTupleHash [strHash child_name, pyIntHash (if b then 1 else 0)])
  | .null => .ok (pyTupleHash [strHash child_name, nullHash])
  | .arr _ => .error "TypeError: unhashable type: list"
  | .obj _ => .error "TypeError: unhashable type: dict"

/-! Text provider adapter: `generate_story_with_openai` (lines 22-67). -/

/-- Page dict appended by one iteration of the stub loop (lines 29-34). -/
def stubPage (name age theme : String) (i : Int) : Json :=
  .obj
    [("page", .num i),
     ("page_text", .str ("Page " ++ toString i ++ ": " ++ name ++
        " does something fun in the " ++ theme ++ ".")),
     ("image_description", .str (name ++ " (age " ++ age ++ ") in a " ++
        theme ++ " scene, playful composition."))]

/-- Offline stub story built when `OPENAI_API_KEY` is empty (lines 24-35). -/
def storyStub (name age theme tone : String) (pages : Int) : Json :=
  .obj
    [("title", .str (name ++ " and the " ++ pyTitle theme ++ " Adventure")),
     ("synopsis", .str ("A short " ++ tone ++ " tale about " ++ name ++ ".")),
     ("pages", .arr ((pyRange1 pages).map (stubPage name age theme)))]

/-- Lines 22-67 of `src/app.py`.  With no API key the offline stub is
returned.  Otherwise `remote` stands for the whole
`requests.post` / `raise_for_status` / `.json()` / content-extraction
exchange, yielding the provider's message text or a transport-class
exception; `loads` stands for `json.loads`, with `none` for a parse
exception.  Note the source returns whatever JSON value parses, with no Story
schema validation (compare `specStorySchema`). -/
def generate_story_with_openai (apiKey : String) (remote : Except String String)
    (loads : String → Option Json) (name age theme tone : String) (pages : Int) :
    Except String Json :=
  if apiKey = "" then .ok (storyStub name age theme tone pages)
  else
    match remote with
    | .error m => .error m
    | .ok text =>
      match loads text with
      | some j => .ok j
      | none => .error ("LLM returned unparsable JSON. Raw text:\n" ++ text)

/-! Image provider adapters (lines 69-120).  `remote` stands for the
`requests.post` / `raise_for_status` / `.json()` exchange (an exception models
a non-success status or transport failure); `b64decode` stands for
`base64.b64decode` applied to the extracted payload field (raising on a
non-string or undecodable value). -/

/-- Lines 69-82: the OpenAI image adapter.  Returns `none` immediately when
`OPENAI_API_KEY` is empty; the `prompt`/`seed` arguments only shape the
request payload, which is part of the external exchange `remote`. -/
def generate_image_openai (apiKey : String) (remote : Except String Json)
    (b64decode : Json → Except String (List Nat)) (prompt : String)
    (seed : Option Nat) : Except String (Option (List Nat)) :=
  if apiKey = "" then .ok none
  else do
    let _ := prompt
    let _ := seed
    let j ← remote
    let d ← jGetKey j "data"
    let e ← jGetIdx d 0
    let b ← jGetKey e "b64_json"
    let bytes ← b64decode b
    .ok (some bytes)

/-- Lines 84-102: the Stability image adapter, gated on
`STABILITY_API_KEY`. -/
def generate_image_stability (apiKey : String) (remote : Except String Json)
    (b64decode : Json → Except String (List Nat)) (prompt : String)
    (seed : Option Nat) : Except String (Option (List Nat)) :=
  if apiKey = "" then .ok none
  else do
    let _ := prompt
    let _ := seed
    let j ← remote
    let a ← jGetKey j "artifacts"
    let e ← jGetIdx a 0
    let b ← jGetKey e "base64"
    let bytes ← b64decode b
    .ok (some bytes)

/-- Lines 104-120: provider dispatch and the image file write.  `uid` stands
for the random `uuid4` hex fragment and `writeImg` for the filesystem write of
the decoded bytes.  Python's `provider_hint or IMAGE_PROVIDER` falls back on a
falsy (empty or `None`) hint, and `if img_bytes:` is falsy for both `None` and
empty bytes. -/
def generate_image (openaiKey stabilityKey imageProviderEnv : String)
    (providerHint : Option String) (uid : String)
    (remoteOpenai remoteStability : Except String Json)
    (b64decode : Json → Except String (List Nat))
    (writeImg : String → List Nat → Except String Unit)
    (prompt : String) (seed : Option Nat) : Except String (Option String) := do
  let provider :=
    match providerHint with
    | some p => if p = "" then imageProviderEnv else p
    | none => imageProviderEnv
  let outPath := "output/img_" ++ uid ++ ".png"
  let imgBytes ←
    if provider = "openai" then
      generate_image_openai openaiKey remoteOpenai b64decode prompt seed
    else if provider = "stability" then
      generate_image_stability stabilityKey remoteStability b64decode prompt seed
    else
      .ok none
  match imgBytes with
  | some b =>
    if !b.isEmpty then do
      writeImg outPath b
      .ok (some outPath)
    else .ok none
  | none => .ok none

/-! The `create` route (lines 126-173). -/

/-- Submitted form fields as seen through `request.form.get`: `none` models a
missing field. -/
structure Form where
  name : Option String
  age : Option String
  theme : Option String
  tone : Option String
  pages : Option String
deriving Repr, DecidableEq

/-- Validated job input (spec name: StoryRequest). -/
structure StoryRequest where
  name : String
  age : String
  theme : String
  tone : String
  pageCount : Int
deriving Repr, DecidableEq

/-- Lines 128-133: field extraction with defaults, and
`pages = int(data.get("pages", 6))`.  A missing `pages` field yields the
integer default `6`; a present field goes through Python `int`, whose
`ValueError` propagates out of the handler (there is no positivity check). -/
def parseForm (f : Form) : Except String StoryRequest := do
  let name := f.name.getD "Child"
  let age := f.age.getD "5"
  let theme := f.theme.getD "jungle"
  let tone := f.tone.getD "playful"
  let pageCount ←
    match f.pages with
    | none => Except.ok (6 : Int)
    | some s =>
      match pyInt s with
      | some n => Except.ok n
      | none => Except.error ("ValueError: invalid literal for int(): " ++ s)
  Except.ok { name, age, theme, tone, pageCount }

/-- Fixed style suffix of the per-page image prompt (lines 148-149). -/
def styleSuffix : String :=
  "Cartoon style, kid-friendly, bright colors, soft rounded shapes. Full scene for a children\x27s book. High detail for print, 300 DPI."

/-- Image prompt f-string of lines 146-150:
`f"{char_token}: {child_descriptor}. {p.get('image_description','')}. "`
followed by the fixed style suffix. -/
def imagePrompt (char_token child_descriptor imgDesc : String) : String :=
  char_token ++ ": " ++ child_descriptor ++ ". " ++ imgDesc ++ ". " ++ styleSuffix

/-- Lines 145-156: the per-page illustration loop of `create`.  For each page
dict, the prompt is built outside the `try` (so a non-dict page raises out of
the handler), while the seed computation and the `generate_image` call sit
inside `try: ... except Exception: img_path = None`.  `genImage` stands for
`generate_image` applied to the ambient configuration, network responses and
filesystem (see `generate_image`), taking the prompt and the computed seed;
`pyHashPair` stands for the process's `hash` of the tuple
`(child_name, page-value)`, erring on an unhashable page value. -/
def illustrateLoop (char_token child_descriptor : String)
    (genImage : String → Nat → Except String (Option String))
    (pyHashPair : String → Json → Except String Int) (child_name : String) :
    List Json → Except String (List (Option String))
  | [] => .ok []
  | p :: ps => do
    let d ← pageGetD p "image_description" (.str "")
    let prompt := imagePrompt char_token child_descriptor (pyStr d)
    let res :=
      match (do
          let pg ← pageGetD p "page" (.num 0)
          let h ← pyHashPair child_name pg
          genImage prompt ((h.emod (2 ^ 32)).toNat) :
          Except String (Option String)) with
      | .ok v => v
      | .error _ => none
    let rest ← illustrateLoop char_token child_descriptor genImage pyHashPair child_name ps
    .ok (res :: rest)

/-- Planned per-page outcome of the loop body of `illustrateLoop` for a page
that is a dict: the recorded value is the image path on success and `none`
whenever the hash or the image call raises, or the call returns `None`.  Used
to state what the loop produces. -/
def plannedResult (char_token child_descriptor : String)
    (genImage : String → Nat → Except String (Option String))
    (pyHashPair : String → Json → Except String Int) (child_name : String)
    (p : Json) : Option String :=
  match (do
      let h ← pyHashPair child_name (objGetD p "page" (.num 0))
      genImage
        (imagePrompt char_token child_descriptor (pyStr (objGetD p "image_description" (.str ""))))
        ((h.emod (2 ^ 32)).toNat) :
      Except String (Option String)) with
  | .ok v => v
  | .error _ => none

/-- One rendered page section of the story document. -/
structure DocSection where
  text : String
  image : Option String
deriving Repr, DecidableEq

/-- The rendered story document handed to WeasyPrint. -/
structure DocumentRep where
  title : String
  synopsis : String
  sections : List DocSection
deriving Repr, DecidableEq

/-- Modelled from the spec: the repository's `templates/story.html` Jinja
template is not under `src/`; per spec section 4.5 the assembler builds the
title, the synopsis, and one section per page pairing the page text with that
page's image or a placeholder (`none`) when absent, preserving page order.
This models line 158, `render_template("story.html", story=story,
images=page_images, ...)`. -/
def pageTextOf (p : Json) : String := pyStr (objGetD p "page_text" (.str ""))

/-- Modelled from the spec: document built by the missing `story.html`
template from the story and the per-page image paths (see `pageTextOf`). -/
def assembleDoc (story : Json) (images : List (Option String)) : DocumentRep :=
  { title := pyStr (objGetD story "title" (.str ""))
    synopsis := pyStr (objGetD story "synopsis" (.str ""))
    sections := List.zipWith (fun p img => { text := pageTextOf p, image := img }) (jPagesD story) images }

/-- Lines 160-170: the assembly tail of `create`.  The rendered document is
first written to `output/....html` (`writeHtml`), then WeasyPrint renders the
PDF bytes (`renderPdf`), then the bytes are written to `output/....pdf`
(`writePdf`), and only then are the in-memory bytes returned.  None of the
writes is guarded by a `try`, so a storage exception propagates. -/
def createTail (doc : DocumentRep) (writeHtml : Except String Unit)
    (renderPdf : DocumentRep → Except String (List Nat))
    (writePdf : List Nat → Except String Unit) : Except String (List Nat) := do
  writeHtml
  let pdf ← renderPdf doc
  writePdf pdf
  .ok pdf

/-- Observable outcome of the `create` route: a flash message followed by a
redirect to the form, or a `send_file` download of the PDF bytes. -/
inductive JobOutcome where
  | redirectWithNotice (msg : String)
  | download (pdf : List Nat) (filename : String)
deriving Repr, DecidableEq

/-- Lines 126-173: the whole `create` handler.  Only the story-generation
call is wrapped in `try/except` (flash + redirect); every other exception —
form coercion, a malformed pages value, a non-dict page, a storage failure —
propagates as `Except.error` (an HTTP 500, no download). -/
def create (f : Form) (apiKey : String) (storyRemote : Except String String)
    (loads : String → Option Json)
    (genImage : String → Nat → Except String (Option String))
    (pyHashPair : String → Json → Except String Int)
    (writeHtml : Except String Unit)
    (renderPdf : DocumentRep → Except String (List Nat))
    (writePdf : List Nat → Except String Unit) : Except String JobOutcome := do
  let req ← parseForm f
  match generate_story_with_openai apiKey storyRemote loads req.name req.age req.theme req.tone req.pageCount with
  | .error e => Except.ok (.redirectWithNotice ("Error generating story: " ++ e))
  | .ok story => do
    let char_token := "CHAR_" ++ pyUpper req.name ++ "_V1"
    let child_descriptor :=
      req.name ++ ", age " ++ req.age ++ ", child character, friendly face, consistent across pages."
    let pagesJ ← pagesOfStory story
    let images ← illustrateLoop char_token child_descriptor genImage pyHashPair req.name pagesJ
    let pdf ← createTail (assembleDoc story images) writeHtml renderPdf writePdf
    Except.ok (.download pdf (req.name ++ "_storybook.pdf"))

/-! Spec-side Story schema, for comparison with what the source accepts. -/

/-- Page record of the spec's data model (section 3). -/
structure SpecPage where
  pageNumber : Int
  text : String
  imageDescription : String
deriving Repr, DecidableEq

/-- Story record of the spec's data model (section 3). -/
structure SpecStory where
  title : String
  synopsis : String
  pages : List SpecPage
deriving Repr, DecidableEq

/-- Page element of the spec's response schema,
`{page, page_text, image_description}` with the stated types (spec section
6).  Written from the spec's words, to state what "parses into the Story
schema" means; the source performs no such validation. -/
def specPageSchema (j : Json) : Option SpecPage :=
  match j with
  | .obj kvs =>
    match lookupKvs kvs "page", lookupKvs kvs "page_text", lookupKvs kvs "image_description" with
    | some (.num n), some (.str t), some (.str d) => some ⟨n, t, d⟩
    | _, _, _ => none
  | _ => none

/-- The spec's response schema `{title, synopsis, pages:[...]}` (spec section
6), written from the spec's words. -/
def specStorySchema (j : Json) : Option SpecStory :=
  match j with
  | .obj kvs =>
    match lookupKvs kvs "title", lookupKvs kvs "synopsis", lookupKvs kvs "pages" with
    | some (.str t), some (.str sy), some (.arr ps) =>
      match ps.mapM specPageSchema with
      | some pages => some ⟨t, sy, pages⟩
      | none => none
    | _, _, _ => none
  | _ => none

/-! Monad-reduction helper lemmas for `Except`. -/

/-- Bind on a successful `Except` computation reduces to the continuation. -/
@[simp] theorem except_ok_bind {α β : Type} (a : α) (g : α → Except String β) :
    (Except.ok a >>= g) = g a := rfl

/-- Bind on a failed `Except` computation propagates the error. -/
@[simp] theorem except_error_bind {α β : Type} (e : String) (g : α → Except String β) :
    ((Except.error e : Except String α) >>= g) = Except.error e := rfl

/-! Claim theorems. -/

/-- C3 (code_bug evidence): the seed of line 152,
`hash((child_name, p.get('page', 0))) % (2**32)`, depends on the process's
randomized string hash.  Two interpreter processes in which the builtin hash
of the subject name differs (here: element hashes 0 and 1, both reachable
under `PYTHONHASHSEED` randomization) derive different seeds for the same
`(subjectName, pageNumber)` pair, refuting determinism across process
restarts; the spec itself (sections 4.1 and 9) flags the source's use of the
runtime hash as a correctness bug. -/
theorem seed_depends_on_process_hash :
    deriveSeed (fun _ => 0) "Mina" 3 ≠ deriveSeed (fun _ => 1) "Mina" 3 := by
  decide

/-- C5: each concrete image provider adapter, called with an unconfigured
credential (the empty `OPENAI_API_KEY` / `STABILITY_API_KEY`), returns an
absent result rather than an error, for every prompt and seed — and the
result is independent of the remote exchange and the decoder, i.e. no remote
call is consulted. -/
theorem unconfigured_adapters_return_absent
    (remoteO remoteS : Except String Json)
    (b64decode : Json → Except String (List Nat))
    (prompt : String) (seed : Option Nat) :
    generate_image_openai "" remoteO b64decode prompt seed = .ok none ∧
    generate_image_stability "" remoteS b64decode prompt seed = .ok none :=
  ⟨rfl, rfl⟩

/-- C7 (counterexample): a storage failure while writing the intermediate
HTML does prevent the in-memory byte stream from being returned — the
exception propagates out of the assembly tail even though the renderer would
have produced the bytes, refuting the claim at this concrete input. -/
theorem storage_failure_blocks_return :
    (fun _ : DocumentRep => (Except.ok [1, 2] : Except String (List Nat)))
        { title := "t", synopsis := "s", sections := [] } = .ok [1, 2] ∧
    createTail { title := "t", synopsis := "s", sections := [] }
        (.error "OSError: disk full")
        (fun _ => (Except.ok [1, 2] : Except String (List Nat)))
        (fun _ => .ok ()) = .error "OSError: disk full" :=
  ⟨rfl, rfl⟩

/-- C7 (amended): persistence in `create` is load-bearing, not
non-authoritative — the assembled PDF bytes are returned if and only if the
intermediate HTML write, the PDF render, and the final PDF write all succeed;
any storage failure propagates instead of being absorbed. -/
theorem pdf_returned_iff_persistence_succeeds (doc : DocumentRep)
    (writeHtml : Except String Unit)
    (renderPdf : DocumentRep → Except String (List Nat))
    (writePdf : List Nat → Except String Unit) (pdf : List Nat) :
    createTail doc writeHtml renderPdf writePdf = .ok pdf ↔
      writeHtml = .ok () ∧ renderPdf doc = .ok pdf ∧ writePdf pdf = .ok () := by
  constructor
  · intro h
    cases hw : writeHtml with
    | error e => simp [createTail, hw] at h
    | ok u =>
      cases u
      cases hr : renderPdf doc with
      | error e => simp [createTail, hw, hr] at h
      | ok b =>
        cases hp : writePdf b with
        | error e => simp [createTail, hw, hr, hp] at h
        | ok u2 =>
          cases u2
          simp [createTail, hw, hr, hp] at h
          subst h
          exact ⟨rfl, rfl, hp⟩
  · rintro ⟨hw, hr, hp⟩
    simp [createTail, hw, hr, hp]

/-- C8 (counterexample): the form `pages="0"` is accepted and yields
`pageCount = 0`, which is not a positive integer, and the non-numeric form
`pages="abc"` makes validation raise `ValueError` instead of yielding a
well-formed StoryRequest — refuting the claim on both counts. -/
theorem page_count_not_positive :
    parseForm { name := none, age := none, theme := none, tone := none, pages := some "0" } =
      Except.ok { name := "Child", age := "5", theme := "jungle", tone := "playful", pageCount := 0 } ∧
    ¬ (1 : Int) ≤ 0 ∧
    parseForm { name := none, age := none, theme := none, tone := none, pages := some "abc" } =
      Except.error "ValueError: invalid literal for int(): abc" :=
  ⟨rfl, by decide, rfl⟩

/-- C8 (amended): every missing form field is replaced by its default
(`Child`, `5`, `jungle`, `playful`, and the integer 6 for `pages`), and the
`pages` field is coerced with Python `int` — producing whatever integer was
submitted, including zero or a negative value, with no positivity check —
while a value `int` cannot parse raises out of validation, so no request is
produced at all. -/
theorem form_defaults_and_int_coercion (f : Form) :
    match parseForm f with
    | .ok r =>
      r.name = f.name.getD "Child" ∧ r.age = f.age.getD "5" ∧
      r.theme = f.theme.getD "jungle" ∧ r.tone = f.tone.getD "playful" ∧
      some r.pageCount = (match f.pages with | none => some (6 : Int) | some s => pyInt s)
    | .error _ => ∃ s, f.pages = some s ∧ pyInt s = none := by
  obtain ⟨n, a, t, tn, p⟩ := f
  cases p with
  | none => simp [parseForm]
  | some s =>
    cases hp : pyInt s with
    | none =>
      simp only [parseForm, hp, except_error_bind]
      exact ⟨s, rfl, hp⟩
    | some k => simp [parseForm, hp]

/-- Unfolding of the illustration loop over dict pages: it succeeds and
produces exactly the pointwise planned outcomes. -/
theorem illustrateLoop_eq_map (char_token child_descriptor child_name : String)
    (genImage : String → Nat → Except String (Option String))
    (pyHashPair : String → Json → Except String Int)
    (pages : List Json) (h : ∀ p ∈ pages, p.isObj = true) :
    illustrateLoop char_token child_descriptor genImage pyHashPair child_name pages =
      .ok (pages.map (plannedResult char_token child_descriptor genImage pyHashPair child_name)) := by
  induction pages with
  | nil => rfl
  | cons p ps ih =>
    have hobj : p.isObj = true := h p (List.mem_cons_self p ps)
    have hrest := ih (fun q hq => h q (List.mem_cons_of_mem p hq))
    cases p with
    | obj kvs =>
      simp only [illustrateLoop, List.map, pageGetD, except_ok_bind, hrest,
        plannedResult, objGetD]
    | null => simp [Json.isObj] at hobj
    | bool b => simp [Json.isObj] at hobj
    | num n => simp [Json.isObj] at hobj
    | str s => simp [Json.isObj] at hobj
    | arr xs => simp [Json.isObj] at hobj

/-- C1: given any sequence of pages (each a page dict, as produced by a
conforming provider), the illustration step of `create` never fails as a
whole: it yields exactly one result per input page, in input order, and the
i-th result is the planned per-page outcome — which records absent (`none`)
whenever that page's image generation returns absent or raises (a
transport-class failure), so no per-page provider failure aborts the job or
the remaining pages. -/
theorem illustrate_results_per_page (char_token child_descriptor child_name : String)
    (genImage : String → Nat → Except String (Option String))
    (pyHashPair : String → Json → Except String Int)
    (pages : List Json) (h : ∀ p ∈ pages, p.isObj = true) :
    ∃ rs : List (Option String),
      illustrateLoop char_token child_descriptor genImage pyHashPair child_name pages = .ok rs ∧
      rs.length = pages.length ∧
      rs = pages.map (plannedResult char_token child_descriptor genImage pyHashPair child_name) :=
  ⟨_, illustrateLoop_eq_map char_token child_descriptor child_name genImage pyHashPair pages h,
    List.length_map _ _, rfl⟩

/-- Four stub-shaped page dicts, pages 1 to 4 (the spec's C1 scenario). -/
def pagesW : List Json :=
  (pyRange1 4).map fun i => .obj [("page", Json.num i), ("image_description", Json.str "sea scene")]

/-- Image generation that raises a transport failure exactly for the seed
derived from page 3 and succeeds elsewhere. -/
def genImageFailPage3 : String → Nat → Except String (Option String) :=
  fun _ seed => if seed = 3 then .error "TransportFailure: HTTP 500" else .ok (some "output/img_ok.png")

/-- Process hash returning the page number itself (a legal hash function for
small non-negative ints). -/
def hashIdentity : String → Json → Except String Int :=
  fun _ pg => match pg with | .num n => .ok n | _ => .error "TypeError: unhashable type"

/-- Witness for C1: the four-page story with a provider failing on page 3
only satisfies the hypothesis and the theorem applies. -/
theorem illustrate_results_per_page_witness :
    (∀ p ∈ pagesW, p.isObj = true) ∧
    ∃ rs : List (Option String),
      illustrateLoop "CHAR_MINA_V1"
          "Mina, age 6, child character, friendly face, consistent across pages."
          genImageFailPage3 hashIdentity "Mina" pagesW = .ok rs ∧
      rs.length = pagesW.length ∧
      rs = pagesW.map (plannedResult "CHAR_MINA_V1"
        "Mina, age 6, child character, friendly face, consistent across pages."
        genImageFailPage3 hashIdentity "Mina") :=
  ⟨by decide,
    illustrate_results_per_page "CHAR_MINA_V1"
      "Mina, age 6, child character, friendly face, consistent across pages."
      "Mina" genImageFailPage3 hashIdentity pagesW (by decide)⟩

/-- C10: the illustration step is total over malformed page dicts — for
every page entry missing the image-description key or the page-number key, a
per-page result is still produced.  When the image-description key is missing
the prompt is built with the empty description substituted, whatever the page
value is — including an unhashable one, whose tuple hash raises inside the
`try` and is collapsed to an absent result rather than aborting.  When the
page-number key is missing, seed derivation succeeds without raising: under
the process's builtin tuple hash it hashes the substituted page number 0, and
the image call receives that seed directly. -/
theorem malformed_page_defaults (char_token child_descriptor child_name : String)
    (genImage : String → Nat → Except String (Option String))
    (strHash : String → Int) (nullHash : Int)
    (kvs : List (String × Json))
    (h : lookupKvs kvs "image_description" = none ∨ lookupKvs kvs "page" = none) :
    (∃ r : Option String,
      illustrateLoop char_token child_descriptor genImage
        (processHashPair strHash nullHash) child_name [Json.obj kvs] = .ok [r]) ∧
    (lookupKvs kvs "image_description" = none →
      illustrateLoop char_token child_descriptor genImage
          (processHashPair strHash nullHash) child_name [Json.obj kvs] =
        .ok [match (do
            let hv ← processHashPair strHash nullHash child_name
              (objGetD (Json.obj kvs) "page" (Json.num 0))
            genImage (imagePrompt char_token child_descriptor "")
              ((hv.emod (2 ^ 32)).toNat) :
            Except String (Option String)) with
          | .ok v => v
          | .error _ => none]) ∧
    (lookupKvs kvs "page" = none →
      illustrateLoop char_token child_descriptor genImage
          (processHashPair strHash nullHash) child_name [Json.obj kvs] =
        .ok [match genImage
            (imagePrompt char_token child_descriptor
              (pyStr (objGetD (Json.obj kvs) "image_description" (Json.str ""))))
            (((pyTupleHash [strHash child_name, pyIntHash 0]).emod (2 ^ 32)).toNat) with
          | .ok v => v
          | .error _ => none]) := by
  have hdesc : lookupKvs kvs "image_description" = none →
      illustrateLoop char_token child_descriptor genImage
          (processHashPair strHash nullHash) child_name [Json.obj kvs] =
        .ok [match (do
            let hv ← processHashPair strHash nullHash child_name
              (objGetD (Json.obj kvs) "page" (Json.num 0))
            genImage (imagePrompt char_token child_descriptor "")
              ((hv.emod (2 ^ 32)).toNat) :
            Except String (Option String)) with
          | .ok v => v
          | .error _ => none] := by
    intro h1
    simp only [illustrateLoop, pageGetD, objGetD, h1, Option.getD, except_ok_bind, pyStr]
  have hpage : lookupKvs kvs "page" = none →
      illustrateLoop char_token child_descriptor genImage
          (processHashPair strHash nullHash) child_name [Json.obj kvs] =
        .ok [match genImage
            (imagePrompt char_token child_descriptor
              (pyStr (objGetD (Json.obj kvs) "image_description" (Json.str ""))))
            (((pyTupleHash [strHash child_name, pyIntHash 0]).emod (2 ^ 32)).toNat) with
          | .ok v => v
          | .error _ => none] := by
    intro h2
    simp only [illustrateLoop, pageGetD, objGetD, h2, Option.getD, except_ok_bind,
      processHashPair]
  refine ⟨?_, hdesc, hpage⟩
  rcases h with h1 | h2
  · exact ⟨_, hdesc h1⟩
  · exact ⟨_, hpage h2⟩

/-- Page dict missing only the `image_description` key, with an unhashable
(list) value under `page` — the case where seed derivation raises inside the
`try`. -/
def kvsUnhashableW : List (String × Json) :=
  [("page", Json.arr [Json.num 1]), ("page_text", Json.str "hello")]

/-- Trivial image generator used by witnesses: always returns absent. -/
def genImageNoneW : String → Nat → Except String (Option String) := fun _ _ => .ok none

/-- Trivial process hash used by witnesses: constant 0. -/
def hashZeroW : String → Json → Except String Int := fun _ _ => .ok 0

/-- Constant-zero string hash standing for one concrete process. -/
def strHashZeroW : String → Int := fun _ => 0

/-- Witness for C10 at a page dict missing only the description and carrying
an unhashable page value. -/
theorem malformed_page_defaults_witness :
    (lookupKvs kvsUnhashableW "image_description" = none ∨
      lookupKvs kvsUnhashableW "page" = none) ∧
    ((∃ r : Option String,
      illustrateLoop "T" "D" genImageNoneW
        (processHashPair strHashZeroW 0) "N" [Json.obj kvsUnhashableW] = .ok [r]) ∧
    (lookupKvs kvsUnhashableW "image_description" = none →
      illustrateLoop "T" "D" genImageNoneW
          (processHashPair strHashZeroW 0) "N" [Json.obj kvsUnhashableW] =
        .ok [match (do
            let hv ← processHashPair strHashZeroW 0 "N"
              (objGetD (Json.obj kvsUnhashableW) "page" (Json.num 0))
            genImageNoneW (imagePrompt "T" "D" "")
              ((hv.emod (2 ^ 32)).toNat) :
            Except String (Option String)) with
          | .ok v => v
          | .error _ => none]) ∧
    (lookupKvs kvsUnhashableW "page" = none →
      illustrateLoop "T" "D" genImageNoneW
          (processHashPair strHashZeroW 0) "N" [Json.obj kvsUnhashableW] =
        .ok [match genImageNoneW
            (imagePrompt "T" "D"
              (pyStr (objGetD (Json.obj kvsUnhashableW) "image_description" (Json.str ""))))
            (((pyTupleHash [strHashZeroW "N", pyIntHash 0]).emod (2 ^ 32)).toNat) with
          | .ok v => v
          | .error _ => none])) :=
  ⟨Or.inl rfl,
    malformed_page_defaults "T" "D" "N" genImageNoneW strHashZeroW 0 kvsUnhashableW
      (Or.inl rfl)⟩

/-- Length of the Python 1-based range. -/
theorem pyRange1_length (n : Int) : (pyRange1 n).length = n.toNat := by
  rw [pyRange1, List.length_map, List.length_range]

/-- Indexing the Python 1-based range. -/
theorem pyRange1_getElem? (n : Int) (i : Nat) (hi : i < n.toNat) :
    (pyRange1 n)[i]? = some ((i : Int) + 1) := by
  rw [pyRange1, List.getElem?_map, List.getElem?_range hi]
  simp

/-- C2: with no text-provider credential, `generate_story_with_openai` does
not fail: for every request with `pageCount` in `[1, 20]` it returns the
offline stub Story, whose pages list has exactly `pageCount` entries, the
i-th entry being a page dict with page number `i + 1`, non-empty generic page
text, and a non-empty generic image description. -/
theorem offline_stub_story_pages (name age theme tone : String)
    (remote : Except String String) (loads : String → Option Json) (pc : Int)
    (_h1 : 1 ≤ pc) (_h2 : pc ≤ 20) :
    ∃ pl : List Json,
      generate_story_with_openai "" remote loads name age theme tone pc =
        .ok (storyStub name age theme tone pc) ∧
      pagesOfStory (storyStub name age theme tone pc) = .ok pl ∧
      pl.length = pc.toNat ∧
      ∀ i, i < pc.toNat →
        ∃ t d : String,
          pl.getD i .null =
            Json.obj [("page", .num ((i : Int) + 1)), ("page_text", .str t),
              ("image_description", .str d)] ∧
          0 < t.length ∧ 0 < d.length := by
  refine ⟨(pyRange1 pc).map (stubPage name age theme), rfl, rfl,
    by rw [List.length_map, pyRange1_length], ?_⟩
  intro i hi
  refine ⟨"Page " ++ toString ((i : Int) + 1) ++ ": " ++ name ++
      " does something fun in the " ++ theme ++ ".",
    name ++ " (age " ++ age ++ ") in a " ++ theme ++ " scene, playful composition.",
    ?_, ?_, ?_⟩
  · rw [List.getD_eq_getElem?_getD, List.getElem?_map, pyRange1_getElem? pc i hi]
    rfl
  · have h : 0 < (".").length := by decide
    simp only [String.length_append]
    omega
  · have h : 0 < (" scene, playful composition.").length := by decide
    simp only [String.length_append]
    omega

/-- Witness for C2 at the spec's scenario `pageCount = 4`. -/
theorem offline_stub_story_pages_witness :
    (1 : Int) ≤ 4 ∧ (4 : Int) ≤ 20 ∧
    ∃ pl : List Json,
      generate_story_with_openai "" (.error "offline") (fun _ => none)
          "Mina" "6" "ocean" "playful" 4 =
        .ok (storyStub "Mina" "6" "ocean" "playful" 4) ∧
      pagesOfStory (storyStub "Mina" "6" "ocean" "playful" 4) = .ok pl ∧
      pl.length = (4 : Int).toNat ∧
      ∀ i, i < (4 : Int).toNat →
        ∃ t d : String,
          pl.getD i .null =
            Json.obj [("page", .num ((i : Int) + 1)), ("page_text", .str t),
              ("image_description", .str d)] ∧
          0 < t.length ∧ 0 < d.length :=
  ⟨by decide, by decide,
    offline_stub_story_pages "Mina" "6" "ocean" "playful" (.error "offline")
      (fun _ => none) 4 (by decide) (by decide)⟩

/-- Concrete stand-in for `json.loads` used by the C4 counterexample: it
parses the two-character text consisting of an opening and a closing curly
brace — which `json.loads` maps to the empty object — and nothing else. -/
def loadsEmptyObj : String → Option Json :=
  fun s => if s = "\x7b\x7d" then some (.obj []) else none

/-- C4 (counterexample): the provider response consisting of an empty JSON
object is content that fails to parse into the Story schema (it lacks every
required field), yet with a configured key `generate_story_with_openai`
returns it as a success instead of failing with a malformed-response error —
the source validates JSON well-formedness only, never the Story schema. -/
theorem schema_invalid_json_not_rejected :
    specStorySchema (Json.obj []) = none ∧
    loadsEmptyObj "\x7b\x7d" = some (Json.obj []) ∧
    generate_story_with_openai "key" (.ok "\x7b\x7d") loadsEmptyObj
      "Mina" "6" "ocean" "playful" 4 = .ok (Json.obj []) :=
  ⟨rfl, rfl, rfl⟩

/-- C4 (amended): when the provider returns content that is not valid JSON
at all (`json.loads` raises), `generate_story_with_openai` fails with an
error retaining the raw response text, and the job aborts — `create` flashes
a failure notice and redirects, producing no document.  Content that is valid
JSON but fails the Story schema is, however, returned without error. -/
theorem nonjson_response_aborts_job (f : Form) (req : StoryRequest)
    (hreq : parseForm f = .ok req) (apiKey text : String) (hk : apiKey ≠ "")
    (loads : String → Option Json) (hl : loads text = none)
    (genImage : String → Nat → Except String (Option String))
    (pyHashPair : String → Json → Except String Int)
    (writeHtml : Except String Unit)
    (renderPdf : DocumentRep → Except String (List Nat))
    (writePdf : List Nat → Except String Unit) :
    generate_story_with_openai apiKey (.ok text) loads req.name req.age req.theme
        req.tone req.pageCount =
      .error ("LLM returned unparsable JSON. Raw text:\n" ++ text) ∧
    create f apiKey (.ok text) loads genImage pyHashPair writeHtml renderPdf writePdf =
      .ok (.redirectWithNotice
        ("Error generating story: " ++ ("LLM returned unparsable JSON. Raw text:\n" ++ text))) := by
  have hg : generate_story_with_openai apiKey (.ok text) loads req.name req.age
      req.theme req.tone req.pageCount =
      .error ("LLM returned unparsable JSON. Raw text:\n" ++ text) := by
    simp [generate_story_with_openai, hk, hl]
  refine ⟨hg, ?_⟩
  simp only [create, hreq, except_ok_bind, hg]

/-- Form with every field missing (all defaults apply). -/
def formDefaultsW : Form := ⟨none, none, none, none, none⟩

/-- The request produced from the all-defaults form. -/
def reqDefaultsW : StoryRequest := ⟨"Child", "5", "jungle", "playful", 6⟩

/-- Stand-in for `json.loads` failing on every text. -/
def loadsNoneW : String → Option Json := fun _ => none

/-- Always-succeeding HTML write used by witnesses. -/
def writeHtmlOkW : Except String Unit := .ok ()

/-- Always-succeeding PDF renderer used by witnesses, returning bytes `[37]`. -/
def renderPdfW : DocumentRep → Except String (List Nat) := fun _ => .ok [37]

/-- Always-succeeding PDF write used by witnesses. -/
def writePdfOkW : List Nat → Except String Unit := fun _ => .ok ()

/-- Witness for C4 (amended) at the all-defaults form and a non-JSON
response. -/
theorem nonjson_response_aborts_job_witness :
    parseForm formDefaultsW = .ok reqDefaultsW ∧
    ("sk-test" : String) ≠ "" ∧
    loadsNoneW "oops, not json" = none ∧
    (generate_story_with_openai "sk-test" (.ok "oops, not json") loadsNoneW
        reqDefaultsW.name reqDefaultsW.age reqDefaultsW.theme reqDefaultsW.tone
        reqDefaultsW.pageCount =
      .error ("LLM returned unparsable JSON. Raw text:\n" ++ "oops, not json") ∧
    create formDefaultsW "sk-test" (.ok "oops, not json") loadsNoneW genImageNoneW
        hashZeroW writeHtmlOkW renderPdfW writePdfOkW =
      .ok (.redirectWithNotice
        ("Error generating story: " ++
          ("LLM returned unparsable JSON. Raw text:\n" ++ "oops, not json")))) :=
  ⟨rfl, by decide, rfl,
    nonjson_response_aborts_job formDefaultsW reqDefaultsW rfl "sk-test"
      "oops, not json" (by decide) loadsNoneW rfl genImageNoneW hashZeroW
      writeHtmlOkW renderPdfW writePdfOkW⟩

/-- Sections built by zipping pages with images project back to the page
texts when the two lists have equal length. -/
theorem zip_sections_text_map (ps : List Json) (imgs : List (Option String))
    (h : imgs.length = ps.length) :
    (List.zipWith (fun p img => ({ text := pageTextOf p, image := img } : DocSection)) ps imgs).map
        DocSection.text = ps.map pageTextOf := by
  induction ps generalizing imgs with
  | nil => simp
  | cons p ps ih =>
    cases imgs with
    | nil => simp at h
    | cons i is =>
      simp only [List.zipWith, List.map, List.cons.injEq]
      exact ⟨trivial, ih is (by simpa using h)⟩

/-- C6: for every story and matching ordered sequence of illustration
results, the assembled document has exactly one section per input page, and
the section texts appear in exactly the order of the story's pages. -/
theorem assemble_one_section_per_page (story : Json) (images : List (Option String))
    (h : images.length = (jPagesD story).length) :
    (assembleDoc story images).sections.length = (jPagesD story).length ∧
    (assembleDoc story images).sections.map DocSection.text = (jPagesD story).map pageTextOf := by
  constructor
  · simp [assembleDoc, List.length_zipWith, h]
  · exact zip_sections_text_map (jPagesD story) images h

/-- Two-page stub story used by the C6 witness. -/
def storyTwoW : Json := storyStub "Mina" "6" "ocean" "playful" 2

/-- Matching illustration results: one absent, one present. -/
def imagesTwoW : List (Option String) := [none, some "output/img_ok.png"]

/-- Witness for C6 at a concrete two-page story. -/
theorem assemble_one_section_per_page_witness :
    imagesTwoW.length = (jPagesD storyTwoW).length ∧
    ((assembleDoc storyTwoW imagesTwoW).sections.length = (jPagesD storyTwoW).length ∧
      (assembleDoc storyTwoW imagesTwoW).sections.map DocSection.text =
        (jPagesD storyTwoW).map pageTextOf) :=
  ⟨rfl, assemble_one_section_per_page storyTwoW imagesTwoW rfl⟩

/-- Form submitting `pages = "0"`. -/
def formZeroW : Form := ⟨none, none, none, none, some "0"⟩

/-- C9 (counterexample): a Story with no pages is not a hard failure — with
`pages = "0"` and no credentials, the stub story has an empty pages list, the
illustration loop runs zero times, and the whole `create` job completes
normally with a downloadable document, instead of surfacing a contract
violation upward. -/
theorem empty_pages_job_completes :
    pagesOfStory (storyStub "Child" "5" "jungle" "playful" 0) = .ok [] ∧
    create formZeroW "" (.error "offline") loadsNoneW genImageNoneW hashZeroW
        writeHtmlOkW renderPdfW writePdfOkW =
      .ok (.download [37] "Child_storybook.pdf") :=
  ⟨rfl, rfl⟩

/-- C9 (amended): a malformed Story with no pages is silently tolerated by
the illustration step, not surfaced as a hard failure: the loop returns an
empty result sequence, and the assembled document simply has no page
sections. -/
theorem empty_pages_not_hard_failure (char_token child_descriptor child_name : String)
    (genImage : String → Nat → Except String (Option String))
    (pyHashPair : String → Json → Except String Int)
    (story : Json) (images : List (Option String))
    (h : jPagesD story = []) :
    illustrateLoop char_token child_descriptor genImage pyHashPair child_name [] = .ok [] ∧
    (assembleDoc story images).sections = [] := by
  exact ⟨rfl, by simp [assembleDoc, h]⟩

/-- Witness for C9 (amended) at the zero-page stub story. -/
theorem empty_pages_not_hard_failure_witness :
    jPagesD (storyStub "Child" "5" "jungle" "playful" 0) = [] ∧
    (illustrateLoop "CHAR_CHILD_V1"
        "Child, age 5, child character, friendly face, consistent across pages."
        genImageNoneW hashZeroW "Child" [] = .ok [] ∧
      (assembleDoc (storyStub "Child" "5" "jungle" "playful" 0) []).sections = []) :=
  ⟨rfl,
    empty_pages_not_hard_failure "CHAR_CHILD_V1"
      "Child, age 5, child character, friendly face, consistent across pages."
      "Child" genImageNoneW hashZeroW (storyStub "Child" "5" "jungle" "playful" 0) [] rfl⟩

end StoryPhy
